import Mathlib

/-!
Shallow embedding of `src/attendance.py` (Timesheet Generator with
Attendance Insights).

Conventions of the embedding:
* Python floats are modelled as `ℚ`; every number appearing here (durations
  in hours, break minutes, thresholds) is exactly representable, and the
  comparisons the code performs are modelled verbatim on `ℚ`.
* A pandas column value that may be `NaN`/`None` is modelled as `Option _`;
  pandas `fillna d` is `Option.getD d`, and a comparison `NaN < 0` being
  `False` is modelled by matching on the `Option`.
* `str` cells are `String`; parsing is done on `String.data` (`List Char`)
  with structural recursion so that concrete runs reduce inside the kernel.
* pandas `sort_values` is used with its default `kind="quicksort"`, which
  does not guarantee a stable order among rows tied on the key. The
  embedding writes the sorts as `List.insertionSort` (descending sorts by
  flipping the relation) as one concrete sort; no theorem below depends on
  the tie order this choice produces — only on sortedness, length and the
  permutation property, which hold for any correct sort — and the concrete
  inputs evaluated have pairwise distinct keys.
* `insights` receives the daily table only to ignore it, so the embedding
  takes the summary table alone.
-/

/-- Time of day as produced by `datetime.strptime(s, "%H:%M").time()`:
an hour and a minute (seconds are always zero). -/
structure Time where
  hour : ℕ
  minute : ℕ
deriving DecidableEq

/-- Minutes since midnight; `datetime.combine` puts both operands of
`hours_between` on the same reference day, so only this offset matters. -/
def Time.toMinutes (t : Time) : ℤ :=
  t.hour * 60 + t.minute

/-- Python `str.strip` / whitespace test, ASCII core. -/
def isSpaceChar (c : Char) : Bool :=
  c = ' ' || c = '\t' || c = '\n' || c = '\r'

/-- Characters `'0'`-`'9'`. -/
def isDigitChar (c : Char) : Bool :=
  48 ≤ c.toNat && c.toNat ≤ 57

/-- Value of a digit character. -/
def digitVal (c : Char) : ℕ :=
  c.toNat - 48

/-- Number denoted by a digit string (most significant digit first). -/
def digitsToNat (l : List Char) : ℕ :=
  l.foldl (fun a c => 10 * a + digitVal c) 0

/-- Python `str.strip()`: drop leading and trailing whitespace. -/
def trimChars (l : List Char) : List Char :=
  ((l.dropWhile isSpaceChar).reverse.dropWhile isSpaceChar).reverse

/-- One `%H`/`%M` field of `strptime`: one or two leading digits, returning
the value and the rest of the input; no leading digit fails the match. -/
def takeDigits2 : List Char → Option (ℕ × List Char)
  | [] => none
  | [c] => if isDigitChar c then some (digitVal c, []) else none
  | c1 :: c2 :: rest =>
    if isDigitChar c1 then
      if isDigitChar c2 then some (10 * digitVal c1 + digitVal c2, rest)
      else some (digitVal c1, c2 :: rest)
    else none

/-- Body of `datetime.strptime(s, "%H:%M")`: a 1-2 digit hour below 24, a
literal colon, a 1-2 digit minute below 60, and nothing else. -/
def parseHM (l : List Char) : Option Time :=
  match takeDigits2 l with
  | none => none
  | some (h, rest) =>
    match rest with
    | ':' :: rest2 =>
      match takeDigits2 rest2 with
      | none => none
      | some (m, rest3) =>
        match rest3 with
        | [] => if h < 24 && m < 60 then some ⟨h, m⟩ else none
        | _ => none
    | _ => none

/-- `to_time` of `attendance.py`: `None`/`NaN` or the empty string give
`None`; otherwise the stripped text must be strict `"%H:%M"`, and any
parse failure is swallowed into `None`. -/
def to_time (x : Option String) : Option Time :=
  match x with
  | none => none
  | some s => if s = "" then none else parseHM (trimChars s.data)

/-- Calendar date. `to_date` feeds `pd.to_datetime`, whose generic grammar
is modelled here by its ISO `year-month-day` core. -/
structure Date where
  year : ℕ
  month : ℕ
  day : ℕ
deriving DecidableEq

/-- ISO core of the `pd.to_datetime` grammar: digits, `'-'`, 1-2 digit
month in 1..12, `'-'`, 1-2 digit day in 1..31, end of input. -/
def parseYMD (l : List Char) : Option Date :=
  let p1 := l.span isDigitChar
  match p1.2 with
  | '-' :: r2 =>
    let p2 := r2.span isDigitChar
    match p2.2 with
    | '-' :: r4 =>
      let p3 := r4.span isDigitChar
      if p1.1 ≠ [] && p2.1 ≠ [] && p3.1 ≠ [] && decide (p3.2 = []) then
        let m := digitsToNat p2.1
        let d := digitsToNat p3.1
        if 1 ≤ m && m ≤ 12 && 1 ≤ d && d ≤ 31 then
          some ⟨digitsToNat p1.1, m, d⟩
        else none
      else none
    | _ => none
  | _ => none

/-- `to_date` of `attendance.py`: `None`/`NaN` or the empty string give
`None`; any text the date grammar rejects gives `None` via the
swallowed exception. -/
def to_date (x : Option String) : Option Date :=
  match x with
  | none => none
  | some s => if s = "" then none else parseYMD (trimChars s.data)

/-- Decimal-number grammar of `pd.to_numeric(errors="coerce")` on one cell:
optional sign, then digits with an optional fractional part (at least one
digit overall). An unparseable cell coerces to `NaN`, i.e. `none`. -/
def parseDecimal (l : List Char) : Option ℚ :=
  let sl : ℚ × List Char :=
    match l with
    | '-' :: r => (-1, r)
    | '+' :: r => (1, r)
    | _ => (1, l)
  let ip := sl.2.span isDigitChar
  match ip.2 with
  | [] => if ip.1 = [] then none else some (sl.1 * digitsToNat ip.1)
  | '.' :: r2 =>
    let fp := r2.span isDigitChar
    if decide (fp.2 = []) && (ip.1 ≠ [] || fp.1 ≠ []) then
      some (sl.1 * ((digitsToNat ip.1 : ℚ) +
        (digitsToNat fp.1 : ℚ) / (10 ^ fp.1.length)))
    else none
  | _ => none

/-- `pd.to_numeric(x, errors="coerce")` on one cell: a missing cell or one
the numeric grammar rejects becomes `NaN` (`none`). -/
def parseNum (x : Option String) : Option ℚ :=
  match x with
  | none => none
  | some s => parseDecimal (trimChars s.data)

/-- `hours_between` of `attendance.py`: `None` when either operand is
missing, else the signed elapsed hours from `t1` to `t2` on one reference
day (`delta.total_seconds() / 3600.0`). -/
def hours_between (t1 t2 : Option Time) : Option ℚ :=
  match t1, t2 with
  | some a, some b => some (((Time.toMinutes b - Time.toMinutes a : ℤ) : ℚ) / 60)
  | _, _ => none

/-- Python `str.lower` on one character, ASCII core. -/
def lowerChar (c : Char) : Char :=
  if 65 ≤ c.toNat && c.toNat ≤ 90 then Char.ofNat (c.toNat + 32) else c

/-- Python `str.lower` on a string, as its character list. -/
def lowerStr (s : String) : List Char :=
  s.data.map lowerChar

/-- One input row of the attendance CSV, before any parsing: each cell is
text or missing (`none` models an empty / `NaN` cell). `employee_id` is
the numeric key the summary sorts by. -/
structure AttendanceRecord where
  employee_id : ℕ
  employee_name : String
  date : Option String
  check_in : Option String
  check_out : Option String
  break_minutes : Option String
  shift_start : Option String
  shift_end : Option String
  expected_hours : Option String
  work_type : String
  leave_type : Option String
deriving DecidableEq

/-- One row of the daily table `compute_timesheet` returns: the parsed
input fields plus every derived column. -/
structure DailyResult where
  employee_id : ℕ
  employee_name : String
  date : Option Date
  check_in : Option Time
  check_out : Option Time
  shift_start : Option Time
  shift_end : Option Time
  break_minutes : ℚ
  expected_hours : ℚ
  work_type : String
  leave_type : Option String
  worked_hours_raw : Option ℚ
  worked_hours : Option ℚ
  late_hours : ℚ
  early_exit_hours : ℚ
  overtime_hours : ℚ
  under_hours : ℚ
  missing_punch : Bool
  absent : Bool
  compliance_alert : Bool
deriving DecidableEq

/-- The per-row body of `compute_timesheet` (lines 38-78 of
`attendance.py`). The pandas code works columnwise, but every column is
computed row-independently, so the daily table is the row-wise map of this
function. `fillna`, `clip(lower=0)` and the `NaN` comparison semantics are
spelled out on `Option ℚ`; a non-`None` `datetime.time` is always truthy
in Python, so the `if r["shift_start"] and r["check_in"]` guards are
`isSome` tests. -/
def compute_row (r : AttendanceRecord) : DailyResult :=
  let check_in := to_time r.check_in
  let check_out := to_time r.check_out
  let shift_start := to_time r.shift_start
  let shift_end := to_time r.shift_end
  let break_minutes := (parseNum r.break_minutes).getD 0
  let expected_hours := (parseNum r.expected_hours).getD 8
  let worked_hours_raw := hours_between check_in check_out
  let worked_hours :=
    match worked_hours_raw.map (fun v => v - break_minutes / 60) with
    | none => none
    | some w => if w < 0 then none else some w
  let late_hours :=
    if shift_start.isSome && check_in.isSome then
      max 0 ((hours_between shift_start check_in).getD 0)
    else 0
  let early_exit_hours :=
    if check_out.isSome && shift_end.isSome then
      max 0 ((hours_between check_out shift_end).getD 0)
    else 0
  let overtime_hours :=
    match worked_hours with
    | some w => max 0 (w - expected_hours)
    | none => 0
  let under_hours :=
    match worked_hours with
    | some w => max 0 (expected_hours - w)
    | none => 0
  let missing_punch := worked_hours_raw.isNone
  let leave := lowerStr (r.leave_type.getD "")
  let absent :=
    decide (worked_hours.getD 0 = 0) &&
      (decide (leave = []) || decide (leave = "unplanned".data))
  let compliance_alert :=
    decide (2 < overtime_hours) || decide (1 < late_hours) ||
      missing_punch || decide (1 < early_exit_hours)
  { employee_id := r.employee_id
    employee_name := r.employee_name
    date := to_date r.date
    check_in := check_in
    check_out := check_out
    shift_start := shift_start
    shift_end := shift_end
    break_minutes := break_minutes
    expected_hours := expected_hours
    work_type := r.work_type
    leave_type := r.leave_type
    worked_hours_raw := worked_hours_raw
    worked_hours := worked_hours
    late_hours := late_hours
    early_exit_hours := early_exit_hours
    overtime_hours := overtime_hours
    under_hours := under_hours
    missing_punch := missing_punch
    absent := absent
    compliance_alert := compliance_alert }

/-- `compute_timesheet` of `attendance.py`: the daily table, one derived
row per input row, in input order. -/
def compute_timesheet (df : List AttendanceRecord) : List DailyResult :=
  df.map compute_row

/-- One row of the monthly summary `summarize_month` returns. -/
structure EmployeeSummary where
  employee_id : ℕ
  employee_name : String
  days_worked : ℕ
  total_hours : ℚ
  expected_hours_total : ℚ
  overtime_total : ℚ
  late_count : ℕ
  early_exit_count : ℕ
  missing_punches : ℕ
  absences : ℕ
  compliance_alerts : ℕ
  utilization_pct : ℚ
deriving DecidableEq

/-- The grouping key of `df.groupby(["employee_id","employee_name"])`. -/
def DailyResult.key (r : DailyResult) : ℕ × String :=
  (r.employee_id, r.employee_name)

/-- Membership of a daily row in one groupby group. -/
def inGroup (k : ℕ × String) (r : DailyResult) : Bool :=
  decide (r.employee_id = k.1) && decide (r.employee_name = k.2)

/-- Rounding ties to even, as numpy/pandas `round` does; on `ℚ` the
half-way test is exact. -/
def roundHalfToEven (x : ℚ) : ℤ :=
  let f := ⌊x⌋
  let r := x - f
  if r < 1 / 2 then f
  else if 1 / 2 < r then f + 1
  else if f % 2 = 0 then f else f + 1

/-- Pandas `Series.round(1)`: round to one decimal place. -/
def round1 (x : ℚ) : ℚ :=
  (roundHalfToEven (10 * x) : ℚ) / 10

/-- The aggregate row of one groupby group (the `agg(...)` of lines 81-93
of `attendance.py`): sums and counts over the group's daily rows.
Pandas `"sum"` skips `NaN`, so the null `worked_hours` contribute `0` to
`total_hours`; summing a boolean column counts its `True` cells.
`utilization_pct` divides the two sums (on `ℚ` the division by a zero
`expected_hours_total`, non-finite in pandas, denotes `0`). -/
def summaryFor (k : ℕ × String) (rows : List DailyResult) : EmployeeSummary :=
  let g := rows.filter (inGroup k)
  let total_hours := (g.map (fun r => r.worked_hours.getD 0)).sum
  let expected_hours_total := (g.map (fun r => r.expected_hours)).sum
  { employee_id := k.1
    employee_name := k.2
    days_worked := g.countP (fun r => decide (0 < r.worked_hours.getD 0))
    total_hours := total_hours
    expected_hours_total := expected_hours_total
    overtime_total := (g.map (fun r => r.overtime_hours)).sum
    late_count := g.countP (fun r => decide ((0.01 : ℚ) < r.late_hours))
    early_exit_count := g.countP (fun r => decide ((0.01 : ℚ) < r.early_exit_hours))
    missing_punches := g.countP (fun r => r.missing_punch)
    absences := g.countP (fun r => r.absent)
    compliance_alerts := g.countP (fun r => r.compliance_alert)
    utilization_pct := round1 (total_hours / expected_hours_total * 100) }

/-- Lexicographic order on character lists: how the tuple key's string
component compares. -/
def charListLeb : List Char → List Char → Bool
  | [], _ => true
  | _ :: _, [] => false
  | a :: as, b :: bs => if a = b then charListLeb as bs else decide (a.toNat < b.toNat)

/-- Ascending order on the groupby key `(employee_id, employee_name)`:
`groupby(sort=True)` sorts the groups by this tuple. -/
def keyLeb (a b : ℕ × String) : Bool :=
  decide (a.1 < b.1) || (decide (a.1 = b.1) && charListLeb a.2.data b.2.data)

/-- `summarize_month` of `attendance.py`: group the daily table by
`(employee_id, employee_name)` (groupby sorts the distinct keys
ascending), aggregate each group, then `sort_values("employee_id")` on
the id alone (again one concrete sort standing for the default quicksort;
only its sortedness is used below, so the order of equal-id rows is not
relied on). -/
def summarize_month (daily : List DailyResult) : List EmployeeSummary :=
  let keys := (daily.map DailyResult.key).dedup
  let sortedKeys := List.insertionSort (fun a b => keyLeb a b = true) keys
  let agg := sortedKeys.map (fun k => summaryFor k daily)
  List.insertionSort (fun a b => a.employee_id ≤ b.employee_id) agg

/-- The four ranked views `insights` returns (the daily table argument of
the Python function is unused, so it is not a parameter here). -/
structure Insights where
  top_late : List EmployeeSummary
  top_overtime : List EmployeeSummary
  top_missing : List EmployeeSummary
  top_absent : List EmployeeSummary

/-- `summary.sort_values(metric, ascending=False)`: a descending sort of
the rows by the metric. The code's default `kind="quicksort"` leaves the
order of tied rows unspecified; the embedding fixes one concrete sort (an
insertion sort on the flipped order), and the theorems below use only the
properties every correct sort shares — sortedness, length and being a
permutation — never the tie order of this choice. -/
def sortDesc (metric : EmployeeSummary → ℚ) (l : List EmployeeSummary) :
    List EmployeeSummary :=
  List.insertionSort (fun a b => metric b ≤ metric a) l

/-- `insights` of `attendance.py`: each view sorts the summary descending
by one metric and keeps the first five rows (`head(5)`). -/
def insights (summary : List EmployeeSummary) : Insights :=
  { top_late := (sortDesc (fun e => (e.late_count : ℚ)) summary).take 5
    top_overtime := (sortDesc (fun e => e.overtime_total) summary).take 5
    top_missing := (sortDesc (fun e => (e.missing_punches : ℚ)) summary).take 5
    top_absent := (sortDesc (fun e => (e.absences : ℚ)) summary).take 5 }

/-- Specification predicate for one ranked view (stated from the spec, to
be compared with what `insights` computes): sorted descending by the
metric, of length `min 5 n`, and a sub-permutation of the summary that is
a permutation of the whole summary exactly when the summary has at most
five rows. The relative order of rows tied on the metric is deliberately
not constrained: the program's default quicksort argsort does not
guarantee it. -/
def RankedViewOK (metric : EmployeeSummary → ℚ)
    (summary view : List EmployeeSummary) : Prop :=
  List.Sorted (fun a b => metric b ≤ metric a) view ∧
  view.length = min 5 summary.length ∧
  view.Subperm summary ∧
  (view.Perm summary ↔ summary.length ≤ 5)

/-- The worked example of spec §8: 09:00-17:30 punches, 30-minute break,
09:00-17:00 shift, 8 expected hours, no leave. -/
def exRec : AttendanceRecord :=
  { employee_id := 1, employee_name := "A", date := some "2024-01-02",
    check_in := some "09:00", check_out := some "17:30",
    break_minutes := some "30", shift_start := some "09:00",
    shift_end := some "17:00", expected_hours := some "8",
    work_type := "office", leave_type := some "" }

/-- A record whose punches both parse but with check-out earlier than
check-in (a same-day negative span). -/
def negRec : AttendanceRecord :=
  { exRec with
    check_in := some "17:00"
    check_out := some "09:00"
    break_minutes := some "0" }

/-- A record with the check-in punch missing. -/
def missRec : AttendanceRecord :=
  { exRec with check_in := none }

/-- The late-arrival example of spec §8: check-in 10:30 against a 09:00
shift start. -/
def lateRec : AttendanceRecord :=
  { exRec with check_in := some "10:30" }

/-- A record whose numeric cells do not parse. -/
def badRec : AttendanceRecord :=
  { exRec with
    break_minutes := some "abc"
    expected_hours := none }

/-- A summary row with the given id and late count and zeroes elsewhere. -/
def sampleSummary (i late : ℕ) : EmployeeSummary :=
  { employee_id := i, employee_name := "E", days_worked := 0, total_hours := 0,
    expected_hours_total := 0, overtime_total := 0, late_count := late,
    early_exit_count := 0, missing_punches := 0, absences := 0,
    compliance_alerts := 0, utilization_pct := 0 }

/-- A monthly summary with exactly five employees, already descending in
late count. -/
def exSummary5 : List EmployeeSummary :=
  [sampleSummary 1 9, sampleSummary 2 8, sampleSummary 3 7,
    sampleSummary 4 6, sampleSummary 5 5]

/-- Daily row derived from the worked example. -/
def exDaily1 : DailyResult := compute_row exRec

/-- Daily row derived from the late-arrival example (same employee). -/
def exDaily2 : DailyResult := compute_row lateRec

/-- A daily row whose lateness is positive but below the 0.01-hour
counting threshold. -/
def tinyLateRow : DailyResult :=
  { exDaily1 with late_hours := 1 / 200 }

/-- Projection equation: the raw worked hours column is `hours_between`
of the parsed punches. -/
theorem compute_row_raw (r : AttendanceRecord) :
    (compute_row r).worked_hours_raw =
      hours_between (to_time r.check_in) (to_time r.check_out) := rfl

/-- Projection equation: parsed break minutes with the `fillna(0)`
default. -/
theorem compute_row_break (r : AttendanceRecord) :
    (compute_row r).break_minutes = (parseNum r.break_minutes).getD 0 := rfl

/-- Projection equation: parsed expected hours with the `fillna(8.0)`
default. -/
theorem compute_row_expected (r : AttendanceRecord) :
    (compute_row r).expected_hours = (parseNum r.expected_hours).getD 8 := rfl

/-- Projection equation: net worked hours from the raw span, the break
deduction and the negative-to-`NaN` rewrite of line 52. -/
theorem compute_row_worked (r : AttendanceRecord) :
    (compute_row r).worked_hours =
      match ((compute_row r).worked_hours_raw).map
          (fun v => v - (compute_row r).break_minutes / 60) with
      | none => none
      | some w => if w < 0 then none else some w := rfl

/-- Projection equation: the missing-punch flag is `isna` of the raw
worked hours. -/
theorem compute_row_missing (r : AttendanceRecord) :
    (compute_row r).missing_punch = ((compute_row r).worked_hours_raw).isNone := rfl

/-- Projection equation: overtime clips `worked − expected` at zero and
fills the null case with zero. -/
theorem compute_row_overtime (r : AttendanceRecord) :
    (compute_row r).overtime_hours =
      match (compute_row r).worked_hours with
      | some w => max 0 (w - (compute_row r).expected_hours)
      | none => 0 := rfl

/-- Projection equation: under-hours clips `expected − worked` at zero and
fills the null case with zero. -/
theorem compute_row_under (r : AttendanceRecord) :
    (compute_row r).under_hours =
      match (compute_row r).worked_hours with
      | some w => max 0 ((compute_row r).expected_hours - w)
      | none => 0 := rfl

/-- Projection equation: the compliance alert disjunction of lines 71-76. -/
theorem compute_row_alert (r : AttendanceRecord) :
    (compute_row r).compliance_alert =
      (decide (2 < (compute_row r).overtime_hours) ||
        decide (1 < (compute_row r).late_hours) ||
        (compute_row r).missing_punch ||
        decide (1 < (compute_row r).early_exit_hours)) := rfl

/-- C1 counterexample: both punches of `negRec` parse to valid times and
check-out is earlier than check-in, yet `worked_hours_raw` is the negative
number `-8`, not null — `hours_between` returns the signed difference and
line 50 stores it unchanged. -/
theorem C1_counterexample :
    to_time negRec.check_in = some ⟨17, 0⟩ ∧
    to_time negRec.check_out = some ⟨9, 0⟩ ∧
    (compute_row negRec).worked_hours_raw = some (-8) ∧
    (compute_row negRec).worked_hours_raw ≠ none := by
  have h : (compute_row negRec).worked_hours_raw = some (-8) := by
    with_unfolding_all rfl
  exact ⟨by with_unfolding_all rfl, by with_unfolding_all rfl, h, by simp [h]⟩

/-- C1 (amended): when both punches parse and check-out is earlier than
check-in, `worked_hours_raw` is the negative elapsed value (non-null);
the invalid span surfaces one column later: with a non-negative break,
`worked_hours` is null. -/
theorem C1_negative_span (r : AttendanceRecord) (a b : Time)
    (h1 : to_time r.check_in = some a) (h2 : to_time r.check_out = some b)
    (hlt : Time.toMinutes b < Time.toMinutes a)
    (hb : 0 ≤ (compute_row r).break_minutes) :
    ∃ v : ℚ, (compute_row r).worked_hours_raw = some v ∧ v < 0 ∧
      (compute_row r).worked_hours = none := by
  have hraw : (compute_row r).worked_hours_raw =
      some (((Time.toMinutes b - Time.toMinutes a : ℤ) : ℚ) / 60) := by
    rw [compute_row_raw, h1, h2]; rfl
  set v : ℚ := ((Time.toMinutes b - Time.toMinutes a : ℤ) : ℚ) / 60 with hv
  have hvneg : v < 0 := by
    apply div_neg_of_neg_of_pos
    · exact_mod_cast sub_neg.mpr hlt
    · norm_num
  refine ⟨v, hraw, hvneg, ?_⟩
  rw [compute_row_worked, hraw]
  have hw : v - (compute_row r).break_minutes / 60 < 0 := by
    have h60 : 0 ≤ (compute_row r).break_minutes / 60 := by positivity
    linarith
  simp [hw]

/-- C1 witness: the amended statement applied to the concrete record
`negRec`. -/
theorem C1_witness :
    ∃ v : ℚ, (compute_row negRec).worked_hours_raw = some v ∧ v < 0 ∧
      (compute_row negRec).worked_hours = none := by
  have hb : (compute_row negRec).break_minutes = 0 := by with_unfolding_all rfl
  exact C1_negative_span negRec ⟨17, 0⟩ ⟨9, 0⟩ (by with_unfolding_all rfl)
    (by with_unfolding_all rfl) (by decide) (by rw [hb])

/-- C2: `worked_hours` is `worked_hours_raw − break_minutes/60`; a null
raw value propagates to null, and a negative difference becomes null
rather than being clamped to zero. -/
theorem C2_worked_hours_rule (r : AttendanceRecord) :
    ((compute_row r).worked_hours_raw = none → (compute_row r).worked_hours = none) ∧
    ∀ v : ℚ, (compute_row r).worked_hours_raw = some v →
      (compute_row r).worked_hours =
        if v - (compute_row r).break_minutes / 60 < 0 then none
        else some (v - (compute_row r).break_minutes / 60) := by
  constructor
  · intro h; rw [compute_row_worked, h]; rfl
  · intro v h; rw [compute_row_worked, h]; rfl

/-- C2 witness: a missing check-in gives a null raw value, hence null
worked hours. -/
theorem C2_witness : (compute_row missRec).worked_hours = none :=
  (C2_worked_hours_rule missRec).1 (by with_unfolding_all rfl)

/-- C3: the missing-punch flag holds exactly when a punch fails to parse,
equivalently exactly when the raw worked hours are null — independent of
leave type (which the flag never reads) and of the sign of the span. -/
theorem C3_missing_punch_iff (r : AttendanceRecord) :
    ((compute_row r).missing_punch = true ↔
      (to_time r.check_in = none ∨ to_time r.check_out = none)) ∧
    ((compute_row r).missing_punch = true ↔
      (compute_row r).worked_hours_raw = none) := by
  constructor
  · rw [compute_row_missing, compute_row_raw]
    cases to_time r.check_in <;> cases to_time r.check_out <;>
      simp [hours_between]
  · rw [compute_row_missing]
    cases (compute_row r).worked_hours_raw <;> simp

/-- C3 witness: the flag raised by the concrete record with a missing
check-in. -/
theorem C3_witness : (compute_row missRec).missing_punch = true :=
  ((C3_missing_punch_iff missRec).1).mpr (Or.inl rfl)

/-- C4: the compliance alert holds exactly when overtime exceeds 2 hours,
or lateness exceeds 1 hour, or a punch is missing, or the early exit
exceeds 1 hour. -/
theorem C4_compliance_alert_iff (r : AttendanceRecord) :
    ((compute_row r).compliance_alert = true ↔
      (2 < (compute_row r).overtime_hours ∨ 1 < (compute_row r).late_hours ∨
        (compute_row r).missing_punch = true ∨
        1 < (compute_row r).early_exit_hours)) := by
  rw [compute_row_alert]
  simp [or_assoc]

/-- C4 witness: the 10:30 late arrival of spec §8 raises the alert
through the lateness threshold. -/
theorem C4_witness : (compute_row lateRec).compliance_alert = true := by
  have hl : (compute_row lateRec).late_hours = 3 / 2 := by
    with_unfolding_all rfl
  exact (C4_compliance_alert_iff lateRec).mpr
    (Or.inr (Or.inl (by rw [hl]; norm_num)))

/-- C5: overtime and under-hours are never both positive, both are
non-negative, and a null worked-hours value zeroes both. -/
theorem C5_overtime_under (r : AttendanceRecord) :
    (0 < (compute_row r).overtime_hours → (compute_row r).under_hours = 0) ∧
    (0 < (compute_row r).under_hours → (compute_row r).overtime_hours = 0) ∧
    0 ≤ (compute_row r).overtime_hours ∧ 0 ≤ (compute_row r).under_hours ∧
    ((compute_row r).worked_hours = none →
      (compute_row r).overtime_hours = 0 ∧ (compute_row r).under_hours = 0) := by
  rcases hw : (compute_row r).worked_hours with _ | w
  · simp [compute_row_overtime, compute_row_under, hw]
  · simp only [compute_row_overtime, compute_row_under, hw]
    refine ⟨?_, ?_, le_max_left _ _, le_max_left _ _, by simp⟩
    · intro h
      rw [lt_max_iff] at h
      rcases h with h | h
      · exact absurd h (lt_irrefl 0)
      · exact max_eq_left (by linarith)
    · intro h
      rw [lt_max_iff] at h
      rcases h with h | h
      · exact absurd h (lt_irrefl 0)
      · exact max_eq_left (by linarith)

/-- C5 witness: the late-arrival example works under its expected hours,
so its positive under-hours force zero overtime. -/
theorem C5_witness : (compute_row lateRec).overtime_hours = 0 := by
  have hu : (compute_row lateRec).under_hours = 3 / 2 := by
    with_unfolding_all rfl
  exact (C5_overtime_under lateRec).2.1 (by rw [hu]; norm_num)

/-- C6: the worked example of spec §8 derives exactly the listed values. -/
theorem C6_worked_example :
    (compute_row exRec).worked_hours_raw = some 8.5 ∧
    (compute_row exRec).worked_hours = some 8 ∧
    (compute_row exRec).late_hours = 0 ∧
    (compute_row exRec).early_exit_hours = 0 ∧
    (compute_row exRec).overtime_hours = 0 ∧
    (compute_row exRec).under_hours = 0 ∧
    (compute_row exRec).missing_punch = false ∧
    (compute_row exRec).absent = false ∧
    (compute_row exRec).compliance_alert = false := by
  refine ⟨?_, ?_, ?_, ?_, ?_, ?_, ?_, ?_, ?_⟩ <;> with_unfolding_all rfl

/-- Any time the strict `"%H:%M"` parser accepts is a valid time of day. -/
theorem parseHM_bounds {l : List Char} {t : Time} (h : parseHM l = some t) :
    t.hour < 24 ∧ t.minute < 60 := by
  simp only [parseHM] at h
  repeat' split at h
  all_goals first
  | exact Option.noConfusion h
  | (injection h with h2; subst h2; simp_all)

/-- C9: the parsers are total and degrade instead of failing: null or
empty text parses to null for times and dates, every accepted time is a
valid 24h time of day, and a numeric cell that is missing or does not
parse falls back to the fixed defaults — 0 break minutes, 8 expected
hours — never to null (the derived columns are plain numbers by type). -/
theorem C9_parsers_total :
    to_time none = none ∧ to_time (some "") = none ∧
    to_date none = none ∧ to_date (some "") = none ∧
    (∀ s : String, ∀ t : Time, to_time (some s) = some t →
      t.hour < 24 ∧ t.minute < 60) ∧
    (∀ r : AttendanceRecord, parseNum r.break_minutes = none →
      (compute_row r).break_minutes = 0) ∧
    (∀ r : AttendanceRecord, parseNum r.expected_hours = none →
      (compute_row r).expected_hours = 8) := by
  refine ⟨rfl, rfl, rfl, rfl, ?_, ?_, ?_⟩
  · intro s t h
    simp only [to_time] at h
    rcases eq_or_ne s "" with rfl | hs
    · simp at h
    · rw [if_neg hs] at h
      exact parseHM_bounds h
  · intro r h
    rw [compute_row_break, h]; rfl
  · intro r h
    rw [compute_row_expected, h]; rfl

/-- C9 witness: the record with an unparseable break and a missing
expected-hours cell gets the defaults 0 and 8. -/
theorem C9_witness :
    (compute_row badRec).break_minutes = 0 ∧
    (compute_row badRec).expected_hours = 8 :=
  ⟨C9_parsers_total.2.2.2.2.2.1 badRec (by with_unfolding_all rfl),
    C9_parsers_total.2.2.2.2.2.2 badRec rfl⟩

/-- C10: the monthly late and early-exit counters count exactly the
group's rows whose lateness (resp. early exit) exceeds 0.01 hours, so a
row with positive lateness at or below 0.01 hours leaves the late count
unchanged. -/
theorem C10_threshold_counts (k : ℕ × String) (rows : List DailyResult) :
    (summaryFor k rows).late_count =
      (rows.filter (inGroup k)).countP
        (fun r => decide ((0.01 : ℚ) < r.late_hours)) ∧
    (summaryFor k rows).early_exit_count =
      (rows.filter (inGroup k)).countP
        (fun r => decide ((0.01 : ℚ) < r.early_exit_hours)) ∧
    ∀ r : DailyResult, inGroup k r = true → 0 < r.late_hours →
      r.late_hours ≤ 0.01 →
      (summaryFor k (r :: rows)).late_count = (summaryFor k rows).late_count := by
  refine ⟨rfl, rfl, ?_⟩
  intro r hg hpos hle
  show ((r :: rows).filter (inGroup k)).countP
      (fun r => decide ((0.01 : ℚ) < r.late_hours)) =
    (rows.filter (inGroup k)).countP
      (fun r => decide ((0.01 : ℚ) < r.late_hours))
  rw [List.filter_cons_of_pos hg, List.countP_cons_of_neg]
  simp [not_lt.mpr hle]

/-- C10 witness: a 0.005-hour lateness (18 seconds) in the group is not
counted. -/
theorem C10_witness :
    (summaryFor (1, "A") [tinyLateRow]).late_count =
      (summaryFor (1, "A") []).late_count := by
  have hl : tinyLateRow.late_hours = 1 / 200 := rfl
  refine (C10_threshold_counts (1, "A") []).2.2 tinyLateRow ?_ ?_ ?_
  · with_unfolding_all rfl
  · rw [hl]; norm_num
  · rw [hl]; norm_num

/-- The flipped-metric relation of a descending sort is total. -/
theorem descRel_total (metric : EmployeeSummary → ℚ) :
    IsTotal EmployeeSummary (fun a b => metric b ≤ metric a) :=
  ⟨fun a b => le_total (metric b) (metric a)⟩

/-- The flipped-metric relation of a descending sort is transitive. -/
theorem descRel_trans (metric : EmployeeSummary → ℚ) :
    IsTrans EmployeeSummary (fun a b => metric b ≤ metric a) :=
  ⟨fun _ _ _ hab hbc => le_trans hbc hab⟩

/-- A descending sort keeps the list's length. -/
theorem sortDesc_length (metric : EmployeeSummary → ℚ) (l : List EmployeeSummary) :
    (sortDesc metric l).length = l.length :=
  List.length_insertionSort _ _

/-- A descending sort permutes the list. -/
theorem sortDesc_perm (metric : EmployeeSummary → ℚ) (l : List EmployeeSummary) :
    (sortDesc metric l).Perm l :=
  List.perm_insertionSort _ _

/-- A descending sort is sorted descending in the metric. -/
theorem sortDesc_sorted (metric : EmployeeSummary → ℚ) (l : List EmployeeSummary) :
    List.Sorted (fun a b => metric b ≤ metric a) (sortDesc metric l) := by
  haveI := descRel_total metric
  haveI := descRel_trans metric
  exact List.sorted_insertionSort _ l

/-- What `head(5)` of a descending sort satisfies: each part of
`RankedViewOK` (every part holds for any correct sort, whatever its tie
order). -/
theorem rankedView_take_five (metric : EmployeeSummary → ℚ)
    (l : List EmployeeSummary) :
    RankedViewOK metric l ((sortDesc metric l).take 5) := by
  refine ⟨?_, ?_, ?_, ⟨?_, ?_⟩⟩
  · exact List.Pairwise.sublist (List.take_sublist 5 _) (sortDesc_sorted metric l)
  · rw [List.length_take, sortDesc_length]
  · exact ((List.take_sublist 5 _).subperm).trans (sortDesc_perm metric l).subperm
  · intro hp
    have h1 := hp.length_eq
    rw [List.length_take, sortDesc_length] at h1
    omega
  · intro h5
    rw [List.take_of_length_le (by rw [sortDesc_length]; exact h5)]
    exact sortDesc_perm metric l

/-- C7 (amended): every ranked view is the summary sorted descending by
its metric and truncated to five rows — sorted descending, of length
`min 5 n`, a sub-permutation of the summary, all of the summary exactly
when the summary has at most five rows (fewer than five are returned
exactly when fewer than five exist). The order among rows tied on the
metric is left unspecified, as the program's default quicksort does not
guarantee it. -/
theorem C7_ranked_views (s : List EmployeeSummary) :
    RankedViewOK (fun e => (e.late_count : ℚ)) s ((insights s).top_late) ∧
    RankedViewOK (fun e => e.overtime_total) s ((insights s).top_overtime) ∧
    RankedViewOK (fun e => (e.missing_punches : ℚ)) s ((insights s).top_missing) ∧
    RankedViewOK (fun e => (e.absences : ℚ)) s ((insights s).top_absent) :=
  ⟨rankedView_take_five _ s, rankedView_take_five _ s,
    rankedView_take_five _ s, rankedView_take_five _ s⟩

/-- C7 counterexample: with exactly five employees the ranked view
contains every summary row, although the summary does not have fewer than
five rows — the claimed "contains all rows exactly when fewer than 5"
fails at five. The five rows carry pairwise distinct late counts, so this
output is what any correct descending sort produces, independent of its
tie behavior. -/
theorem C7_counterexample :
    (insights exSummary5).top_late = exSummary5 ∧
    (insights exSummary5).top_late.length = 5 ∧ ¬ exSummary5.length < 5 := by
  refine ⟨?_, ?_, ?_⟩
  · with_unfolding_all rfl
  · with_unfolding_all rfl
  · decide

/-- C8: aggregation is order-independent — permuting the daily rows (in
particular those of one employee group) leaves every employee's whole
summary row unchanged — and the summary table is sorted ascending by
employee id. -/
theorem C8_aggregation_order_free (rows1 rows2 : List DailyResult)
    (h : rows1.Perm rows2) :
    (∀ k : ℕ × String, summaryFor k rows1 = summaryFor k rows2) ∧
    List.Sorted (fun a b : EmployeeSummary => a.employee_id ≤ b.employee_id)
      (summarize_month rows1) := by
  constructor
  · intro k
    have hg : (rows1.filter (inGroup k)).Perm (rows2.filter (inGroup k)) :=
      h.filter _
    have hsum : ∀ f : DailyResult → ℚ,
        ((rows1.filter (inGroup k)).map f).sum =
          ((rows2.filter (inGroup k)).map f).sum :=
      fun f => (hg.map f).sum_eq
    have hcnt : ∀ p : DailyResult → Bool,
        (rows1.filter (inGroup k)).countP p =
          (rows2.filter (inGroup k)).countP p :=
      fun p => hg.countP_eq p
    simp only [summaryFor, hsum, hcnt]
  · haveI : IsTotal EmployeeSummary (fun a b => a.employee_id ≤ b.employee_id) :=
      ⟨fun a b => Nat.le_total _ _⟩
    haveI : IsTrans EmployeeSummary (fun a b => a.employee_id ≤ b.employee_id) :=
      ⟨fun _ _ _ h1 h2 => Nat.le_trans h1 h2⟩
    exact List.sorted_insertionSort _ _

/-- C8 witness: swapping the two daily rows of employee 1 changes no
summary row, and the two-row table's summary is sorted by id. -/
theorem C8_witness :
    (∀ k : ℕ × String,
      summaryFor k [exDaily1, exDaily2] = summaryFor k [exDaily2, exDaily1]) ∧
    List.Sorted (fun a b : EmployeeSummary => a.employee_id ≤ b.employee_id)
      (summarize_month [exDaily1, exDaily2]) :=
  C8_aggregation_order_free [exDaily1, exDaily2] [exDaily2, exDaily1]
    (List.Perm.swap _ _ _)
